import Mathlib

/-!
Verification of the techno-economic analysis (TEA) core of the biosteam
repository (`biosteam/_tea.py`, with one collaborator claim about
`biosteam/units/_balance.py`).

The embedding is shallow: Python floats become exact rationals (`ℚ`),
numpy arrays become `List ℚ`, object attributes become structure fields,
and the pluggable cost-accounting hooks (`_TDC`, `_FCI`, `_FOC`) become
function-valued fields.  Exception-raising scalar solvers from `_utils`
(`aitken_secant`, `secant`) are abstracted as function parameters: a
primary solver that may fail returns `Option ℚ` (`none` = the Python
call raised), the plain secant fallback returns `ℚ`.
-/

/-! ## Depreciation data (`_MACRS`, `_tea.py` lines 20-45) -/

/-- `_MACRS['MACRS5']` (`_tea.py` lines 20-21). -/
def macrs5 : List ℚ :=
  [0.2000, 0.3200, 0.1920, 0.1152, 0.1152, 0.0576]

/-- `_MACRS['MACRS7']` (`_tea.py` lines 23-25). -/
def macrs7 : List ℚ :=
  [0.1429, 0.2449, 0.1749, 0.1249, 0.0893, 0.0892, 0.0893, 0.0446]

/-- `_MACRS['MACRS10']` (`_tea.py` lines 27-30). -/
def macrs10 : List ℚ :=
  [0.1000, 0.1800, 0.1440, 0.1152, 0.0922, 0.0737, 0.0655, 0.0655,
   0.0656, 0.0655, 0.0328]

/-- `_MACRS['MACRS15']` (`_tea.py` lines 32-37). -/
def macrs15 : List ℚ :=
  [0.0500, 0.0950, 0.0855, 0.0770, 0.0693, 0.0623, 0.0590, 0.0590,
   0.0591, 0.0590, 0.0591, 0.0590, 0.0591, 0.0590, 0.0591, 0.0295]

/-- `_MACRS['MACRS20']` (`_tea.py` lines 39-45).  Entry index 8 is
`0.4462` exactly as written in the source (line 41). -/
def macrs20 : List ℚ :=
  [0.03750, 0.07219, 0.06677, 0.06177, 0.05713, 0.05285, 0.04888,
   0.04522, 0.4462, 0.04461, 0.04462, 0.04461, 0.04462, 0.04461,
   0.04462, 0.04461, 0.04462, 0.04461, 0.04462, 0.04461, 0.02231]

/-- The `_MACRS` registry (`_tea.py` lines 20-45) as a partial map from
schedule name to its array of annual fractions. -/
def _MACRS (name : String) : Option (List ℚ) :=
  if name = "MACRS5" then some macrs5
  else if name = "MACRS7" then some macrs7
  else if name = "MACRS10" then some macrs10
  else if name = "MACRS15" then some macrs15
  else if name = "MACRS20" then some macrs20
  else none

/-- The registry's key set, in source order. -/
def macrsNames : List String :=
  ["MACRS5", "MACRS7", "MACRS10", "MACRS15", "MACRS20"]

/-! ## The depreciation setter (`TEA.depreciation`, `_tea.py` lines 211-221)

The setter looks the name up in `_MACRS`; on a `KeyError` it raises
`ValueError` with the message (line 220)

  depreciation must be either 'MACRS5', 'MACRS7', 'MACRS10' or 'MACRS15 (not ...)

We embed the error as a structured value carrying the list of schedule
names the message text enumerates. -/

/-- Embedding of the `ValueError` raised by the depreciation setter: the
field records which schedule names the message text names. -/
structure DepreciationError where
  mentionedNames : List String
  deriving DecidableEq, Repr

/-- The schedule names enumerated in the `ValueError` message of
`TEA.depreciation` (`_tea.py` line 220): the message names MACRS5,
MACRS7, MACRS10 and MACRS15 only. -/
def depreciationMessageNames : List String :=
  ["MACRS5", "MACRS7", "MACRS10", "MACRS15"]

/-- `TEA.depreciation` setter (`_tea.py` lines 215-221): look up the
name in `_MACRS`; a missing key raises a `ValueError` whose message
enumerates `depreciationMessageNames`; a present key returns the
schedule's fraction array. -/
def set_depreciation (name : String) : Except DepreciationError (List ℚ) :=
  match _MACRS name with
  | some arr => .ok arr
  | none => .error ⟨depreciationMessageNames⟩

/-! ## Collaborator contracts (costed units and streams)

`TEA` queries each unit for `purchase_cost`, `installation_cost` and
`utility_cost`, and each stream for `price`, `cost`, `massnet` and its
`sink`/`source` role flags.  We embed exactly those attributes. -/

/-- A costed unit operation (collaborator contract). -/
structure ProcUnit where
  purchase_cost : ℚ
  installation_cost : ℚ
  utility_cost : ℚ
  deriving DecidableEq, Repr

/-- A process stream (collaborator contract).  `sink` is truthy when the
stream is consumed by the system (a feed), `source` when it is produced
(a product). -/
structure Strm where
  price : ℚ
  cost : ℚ
  massnet : ℚ
  sink : Bool
  source : Bool
  deriving DecidableEq, Repr

/-! ## The TEA record (`class TEA`, `_tea.py` lines 84-456)

Attributes set by `TEA.__init__` (lines 159-190).  Property setters that
merely cache derived values (`_annual_factor`, `_years`, `_start`,
`_depreciation_array`, `_startup_time`) are embedded as derived
functions.  `depreciation_array` stores the resolved `_MACRS` table;
`startup_time` stores `startup_months / 12` as the setter does (line
238).  `lang_factor = 0` encodes a falsy Python `lang_factor`.  The
three abstract cost-accounting hooks `_TDC`, `_FCI`, `_FOC` are
function-valued fields `TDCf`, `FCIf`, `FOCf`. -/

structure TEA where
  IRR : ℚ
  duration : ℤ × ℤ
  depreciation_array : List ℚ
  income_tax : ℚ
  operating_days : ℚ
  lang_factor : ℚ
  construction_schedule : List ℚ
  startup_time : ℚ
  startup_FOCfrac : ℚ
  startup_VOCfrac : ℚ
  startup_salesfrac : ℚ
  WC_over_FCI : ℚ
  finance_interest : ℚ
  finance_years : ℕ
  finance_fraction : ℚ
  TDCf : ℚ → ℚ
  FCIf : ℚ → ℚ
  FOCf : ℚ → ℚ
  units : List ProcUnit
  feeds : List Strm
  products : List Strm

namespace TEA

/-- `_annual_factor = operating_days * 24` (`_tea.py` line 200). -/
def annual_factor (t : TEA) : ℚ := t.operating_days * 24

/-- `_years = duration[1] - duration[0]` (`_tea.py` line 209). -/
def years (t : TEA) : ℤ := t.duration.2 - t.duration.1

/-- `_years` as a natural number, for array sizing.  The source uses the
raw difference in `np.zeros((7, start+years))`; a negative difference is
invalid there, so `toNat` agrees on every valid configuration. -/
def yearsN (t : TEA) : ℕ := t.years.toNat

/-- `_start = len(construction_schedule)` (`_tea.py` line 230). -/
def start (t : TEA) : ℕ := t.construction_schedule.length

/-- `TEA.utility_cost` (`_tea.py` lines 241-243):
`sum([u.utility_cost for u in self.units]) * self._annual_factor`. -/
def utility_cost (t : TEA) : ℚ :=
  (t.units.map ProcUnit.utility_cost).sum * t.annual_factor

/-- `TEA.purchase_cost` (`_tea.py` lines 245-247). -/
def purchase_cost (t : TEA) : ℚ :=
  (t.units.map ProcUnit.purchase_cost).sum

/-- `TEA.installation_cost` (`_tea.py` lines 249-251). -/
def installation_cost (t : TEA) : ℚ :=
  (t.units.map ProcUnit.installation_cost).sum

/-- `TEA.DPI` (`_tea.py` lines 253-255):
`purchase_cost * lang_factor if lang_factor else installation_cost`. -/
def DPI (t : TEA) : ℚ :=
  if t.lang_factor ≠ 0 then t.purchase_cost * t.lang_factor
  else t.installation_cost

/-- `TEA.TDC` (`_tea.py` lines 257-259): `self._TDC(self.DPI)`. -/
def TDC (t : TEA) : ℚ := t.TDCf t.DPI

/-- `TEA.FCI` (`_tea.py` lines 261-263): `self._FCI(self.TDC)`. -/
def FCI (t : TEA) : ℚ := t.FCIf t.TDC

/-- `TEA.TCI` (`_tea.py` lines 265-267): `(1 + WC_over_FCI) * FCI`. -/
def TCI (t : TEA) : ℚ := (1 + t.WC_over_FCI) * t.FCI

/-- `TEA.FOC` (`_tea.py` lines 269-271): `self._FOC(self.FCI)`. -/
def FOC (t : TEA) : ℚ := t.FOCf t.FCI

/-- `TEA.material_cost` (`_tea.py` lines 284-286):
`sum([s.cost for s in self.system.feeds if s.price]) * _annual_factor`. -/
def material_cost (t : TEA) : ℚ :=
  ((t.feeds.filter (fun s => s.price != 0)).map Strm.cost).sum *
    t.annual_factor

/-- `TEA.sales` (`_tea.py` lines 291-294):
`sum([s.cost for s in self.system.products if s.price]) * _annual_factor`. -/
def sales (t : TEA) : ℚ :=
  ((t.products.filter (fun s => s.price != 0)).map Strm.cost).sum *
    t.annual_factor

/-- `TEA.VOC` (`_tea.py` lines 273-275): `material_cost + utility_cost`. -/
def VOC (t : TEA) : ℚ := t.material_cost + t.utility_cost

/-- `TEA.AOC` (`_tea.py` lines 277-279): `FOC + VOC`. -/
def AOC (t : TEA) : ℚ := t.FOC + t.VOC

/-- `TEA.working_capital` (`_tea.py` lines 280-282):
`self.WC_over_FCI * self.TDC` — the source multiplies the ratio by TDC
here (contrast the local `WC = self.WC_over_FCI * FCI` inside
`TEA.cashflow`, line 354). -/
def working_capital (t : TEA) : ℚ := t.WC_over_FCI * t.TDC

/-- `TEA.net_earnings` (`_tea.py` lines 302-305):
`(1 - t.income_tax) * (sales - AOC)`. -/
def net_earnings (t : TEA) : ℚ := (1 - t.income_tax) * (t.sales - t.AOC)

/-! ### The cash flow table (`TEA.cashflow`, `_tea.py` lines 340-386)

The method allocates `np.zeros((7, start+years))` and fills the seven
series `D, C_FC, C_WC, Loan, LIP, C, S` by slice assignment.  Each
series is embedded as a `List ℚ` of length `n = start + years` built by
`List.ofFn`; an index left untouched by the source's assignments stays
`0`, and later assignments overwrite earlier ones exactly as in numpy.
All claims concern the unfinanced branch (`finance_interest` falsy), so
`cashflow` embeds the `else` return of line 386; the financed branch
calls `solve_payment`, whose root-finder lives in `_utils`. -/

/-- Length `start + years` of every cash flow series (line 358). -/
def n (t : TEA) : ℕ := t.start + t.yearsN

/-- Local working capital of `cashflow` (line 354): `WC_over_FCI * FCI`
with `FCI = self._FCI(TDC)` (line 353). -/
def WCcash (t : TEA) : ℚ := t.WC_over_FCI * t.FCI

/-- `C_FC[:start] = FCI * construction_schedule` (line 360); all other
entries remain zero. -/
def C_FC (t : TEA) : List ℚ :=
  List.ofFn fun i : Fin t.n =>
    if (i : ℕ) < t.start then t.FCI * t.construction_schedule.getD i 0
    else 0

/-- `D[start:start+len(depreciation)] = TDC * depreciation` (line 362);
other entries remain zero. -/
def Dser (t : TEA) : List ℚ :=
  List.ofFn fun i : Fin t.n =>
    if t.start ≤ (i : ℕ) ∧ (i : ℕ) < t.start + t.depreciation_array.length
    then t.TDC * t.depreciation_array.getD ((i : ℕ) - t.start) 0
    else 0

/-- Index written by `C_WC[start-1] = WC` (line 363): Python wraps the
index `-1` (when `start = 0`) to the last entry. -/
def wcSpendIndex (t : TEA) : ℕ :=
  if t.start = 0 then t.n - 1 else t.start - 1

/-- `C_WC[start-1] = WC; C_WC[-1] = -WC` (lines 363-364).  The second
assignment lands on the last entry and overwrites the first whenever the
two indices coincide. -/
def C_WC (t : TEA) : List ℚ :=
  List.ofFn fun i : Fin t.n =>
    if (i : ℕ) = t.n - 1 then -t.WCcash
    else if (i : ℕ) = t.wcSpendIndex then t.WCcash
    else 0

/-- The operating cost series `C` (lines 370-374): the entry at `start`
blends startup and full rates with `w0 = _startup_time`, entries after
`start` carry `VOC + FOC`, construction years stay zero. -/
def Cser (t : TEA) : List ℚ :=
  List.ofFn fun i : Fin t.n =>
    if (i : ℕ) < t.start then 0
    else if (i : ℕ) = t.start then
      t.startup_time * t.startup_VOCfrac * t.VOC
        + (1 - t.startup_time) * t.VOC
        + t.startup_time * t.startup_FOCfrac * t.FOC
        + (1 - t.startup_time) * t.FOC
    else t.VOC + t.FOC

/-- The sales series `S` (lines 372, 375): the entry at `start` blends
startup and full sales, entries after `start` carry full `sales`. -/
def Sser (t : TEA) : List ℚ :=
  List.ofFn fun i : Fin t.n =>
    if (i : ℕ) < t.start then 0
    else if (i : ℕ) = t.start then
      t.startup_time * t.startup_salesfrac * t.sales
        + (1 - t.startup_time) * t.sales
    else t.sales

/-- `NE = (S - C - D) * (1 - income_tax)` (line 376), elementwise. -/
def NE (t : TEA) : List ℚ :=
  List.ofFn fun i : Fin t.n =>
    ((t.Sser.getD i 0) - (t.Cser.getD i 0) - (t.Dser.getD i 0)) *
      (1 - t.income_tax)

/-- `TEA.cashflow` for the unfinanced branch (line 386):
`NE + D - C_FC - C_WC`, elementwise. -/
def cashflow (t : TEA) : List ℚ :=
  List.ofFn fun i : Fin t.n =>
    t.NE.getD i 0 + t.Dser.getD i 0 - t.C_FC.getD i 0 - t.C_WC.getD i 0

/-- `TEA._NPV_at_IRR` (`_tea.py` lines 388-390):
`(cashflow / (1+IRR) ** duration_array).sum()` where `_duration_array =
arange(-start, years)` (line 357), so entry `i` is discounted by
`(1+IRR) ^ (i - start)`. -/
def NPV_at_IRR (t : TEA) (IRR : ℚ) (cf : List ℚ) : ℚ :=
  (List.ofFn fun i : Fin cf.length =>
    cf.getD i 0 / (1 + IRR) ^ (((i : ℕ) : ℤ) - (t.start : ℤ))).sum

/-- `TEA._NPV_with_sales` (`_tea.py` lines 392-398): copy the cash flow,
add the startup-blended extra sales at index `start` (using
`startup_VOCfrac`, exactly as line 396 does) and the full extra sales
after it, and discount at `self.IRR`. -/
def NPV_with_sales (t : TEA) (sales : ℚ) (cf : List ℚ) : ℚ :=
  let cf1 := cf.mapIdx fun i x =>
    if i = t.start then
      x + (t.startup_time * t.startup_VOCfrac * sales
            + (1 - t.startup_time) * sales)
    else if t.start < i then x + sales
    else x
  t.NPV_at_IRR t.IRR cf1

/-- `TEA._price2cost` (`_tea.py` lines 414-416):
`stream.massnet * self._annual_factor * (1 - self.income_tax)`. -/
def price2cost (t : TEA) (s : Strm) : ℚ :=
  s.massnet * t.annual_factor * (1 - t.income_tax)

end TEA

/-! ## The root-finder chain (`solve_IRR` / `solve_price`, `_tea.py`
lines 400-442)

`aitken_secant` and `secant` live in `_utils` and are abstracted here as
function parameters: both take the objective and the call record (two
seeds, `xtol`, `maxiter`); the accelerated solver returns `Option ℚ`
(`none` = the Python call raised and the `except` branch runs), the
plain secant returns `ℚ`.  What `_tea.py` itself fixes — which solver is
tried first, the seeds, tolerance and iteration cap of each call, and
the update of the warm-start guess — is embedded verbatim. -/

/-- The argument record of one scalar-solver invocation: two starting
guesses, the absolute tolerance `xtol`, and `maxiter`. -/
structure SolverCall where
  x0 : ℚ
  x1 : ℚ
  xtol : ℚ
  maxiter : ℕ
  deriving DecidableEq, Repr

/-- Type of the primary (`aitken_secant`) solver: may fail. -/
def AccelSolver : Type := (ℚ → ℚ) → SolverCall → Option ℚ

/-- Type of the fallback (`secant`) solver: total. -/
def PlainSolver : Type := (ℚ → ℚ) → SolverCall → ℚ

namespace TEA

/-- `TEA.solve_IRR` (`_tea.py` lines 400-412): try `aitken_secant` on
`_NPV_at_IRR` seeded at the stored guess `irrGuess = self._IRR` and
`irrGuess + 1e-6` with `xtol=1e-6, maxiter=200`; if that raises, run
`secant` seeded at `0.15` and `0.15001` with the same tolerance and cap.
Returns the pair (updated `_IRR` guess, returned IRR) — the source
assigns the solver result to `self._IRR` and returns it. -/
def solve_IRR (accel : AccelSolver) (plain : PlainSolver)
    (t : TEA) (irrGuess : ℚ) : ℚ × ℚ :=
  let f := fun IRR => t.NPV_at_IRR IRR t.cashflow
  match accel f ⟨irrGuess, irrGuess + 1e-6, 1e-6, 200⟩ with
  | some r => (r, r)
  | none =>
    let r := plain f ⟨0.15, 0.15001, 1e-6, 200⟩
    (r, r)

/-- `TEA.solve_price` (`_tea.py` lines 418-442): try `aitken_secant` on
`_NPV_with_sales` seeded at the stored guess `salesGuess = self._sales`
and `salesGuess + 1e-6` with `xtol=1e-6, maxiter=200`; if that raises,
run `secant` seeded at `0` and `1e-6` with the same tolerance and cap.
The first component is the updated `_sales` guess; the second is the
returned price: `price - sales/price2cost` for a feed (`stream.sink`),
`price + sales/price2cost` for a product (`stream.source`), and a
`ValueError` otherwise. -/
def solve_price (accel : AccelSolver) (plain : PlainSolver)
    (t : TEA) (salesGuess : ℚ) (s : Strm) : ℚ × Except String ℚ :=
  let price2cost := t.price2cost s
  let f := fun sales => t.NPV_with_sales sales t.cashflow
  let newSales :=
    match accel f ⟨salesGuess, salesGuess + 1e-6, 1e-6, 200⟩ with
    | some r => r
    | none => plain f ⟨0, 1e-6, 1e-6, 200⟩
  (newSales,
    if s.sink then .ok (s.price - newSales / price2cost)
    else if s.source then .ok (s.price + newSales / price2cost)
    else .error "stream must be either a feed or a product")

end TEA

/-! ## CombinedTEA (`class CombinedTEA`, `_tea.py` lines 459-628) -/

/-- `CombinedTEA.__init__` (`_tea.py` lines 465-476): an ordered
collection of member TEAs and one shared IRR. -/
structure CombinedTEA where
  TEAs : List TEA
  IRR : ℚ

namespace CombinedTEA

/-- `CombinedTEA.utility_cost` (`_tea.py` lines 481-484). -/
def utility_cost (c : CombinedTEA) : ℚ :=
  (c.TEAs.map TEA.utility_cost).sum

/-- `CombinedTEA.purchase_cost` (`_tea.py` lines 485-488). -/
def purchase_cost (c : CombinedTEA) : ℚ :=
  (c.TEAs.map TEA.purchase_cost).sum

/-- `CombinedTEA.installation_cost` (`_tea.py` lines 489-492). -/
def installation_cost (c : CombinedTEA) : ℚ :=
  (c.TEAs.map TEA.installation_cost).sum

/-- `CombinedTEA.DPI` (`_tea.py` lines 493-496). -/
def DPI (c : CombinedTEA) : ℚ := (c.TEAs.map TEA.DPI).sum

/-- `CombinedTEA.TDC` (`_tea.py` lines 497-500). -/
def TDC (c : CombinedTEA) : ℚ := (c.TEAs.map TEA.TDC).sum

/-- `CombinedTEA.FCI` (`_tea.py` lines 501-504). -/
def FCI (c : CombinedTEA) : ℚ := (c.TEAs.map TEA.FCI).sum

/-- `CombinedTEA.TCI` (`_tea.py` lines 505-508). -/
def TCI (c : CombinedTEA) : ℚ := (c.TEAs.map TEA.TCI).sum

/-- `CombinedTEA.FOC` (`_tea.py` lines 509-512). -/
def FOC (c : CombinedTEA) : ℚ := (c.TEAs.map TEA.FOC).sum

/-- `CombinedTEA.material_cost` (`_tea.py` lines 524-527). -/
def material_cost (c : CombinedTEA) : ℚ :=
  (c.TEAs.map TEA.material_cost).sum

/-- `CombinedTEA.VOC` (`_tea.py` lines 513-516):
`self.material_cost + self.utility_cost`. -/
def VOC (c : CombinedTEA) : ℚ := c.material_cost + c.utility_cost

/-- `CombinedTEA.AOC` (`_tea.py` lines 517-520): `self.FOC + self.VOC`. -/
def AOC (c : CombinedTEA) : ℚ := c.FOC + c.VOC

/-- `CombinedTEA.working_capital` (`_tea.py` lines 521-523). -/
def working_capital (c : CombinedTEA) : ℚ :=
  (c.TEAs.map TEA.working_capital).sum

/-- `CombinedTEA.sales` (`_tea.py` lines 532-535). -/
def sales (c : CombinedTEA) : ℚ := (c.TEAs.map TEA.sales).sum

/-- `CombinedTEA.net_earnings` (`_tea.py` lines 536-539). -/
def net_earnings (c : CombinedTEA) : ℚ :=
  (c.TEAs.map TEA.net_earnings).sum

/-- `CombinedTEA._price2cost` (`_tea.py` lines 612-614): just
`stream.massnet`, with no annualization and no tax adjustment. -/
def price2cost (s : Strm) : ℚ := s.massnet

/-- `CombinedTEA._NPV_at_IRR` (`_tea.py` lines 553-555): the sum of each
member's `_NPV_at_IRR` over its own cash flow array. -/
def NPV_at_IRR (IRR : ℚ) (TEA_cashflows : List (TEA × List ℚ)) : ℚ :=
  (TEA_cashflows.map fun p => p.1.NPV_at_IRR IRR p.2).sum

/-- `CombinedTEA._NPV_with_sales` (`_tea.py` lines 557-566), embedded
with the aliasing made explicit.  The source receives `TEA_cashflows`
(the list of `(member, cashflow-array)` pairs) and `cashflow`, the very
array object stored in the pair of the attributed member `t` (built at
line 594 as `TEA_cashflows[self.TEAs.index(TEA)][1]`).  We model the
heap as the list `cfs` of member cash flow arrays, with `k` the index of
the attributed member, and return the final heap together with the NPV:
 1. `CF = cashflow.copy()` — save the original entries;
 2. add `TEA_sales = sales * annual_factor * (1 - income_tax)` to the
    attributed array in place (startup-blended at index `start`, full
    after it) — visible through the alias in the pair list;
 3. `NPV = self._NPV_at_IRR(self.IRR, TEA_cashflows)` on the mutated
    heap;
 4. `cashflow[:] = CF` — restore the attributed array. -/
def NPV_with_sales (c : CombinedTEA) (sales : ℚ) (cfs : List (List ℚ))
    (k : ℕ) (t : TEA) : List (List ℚ) × ℚ :=
  let cashflow := cfs.getD k []
  let CF := cashflow
  let TEA_sales := sales * t.annual_factor * (1 - t.income_tax)
  let w0 := t.startup_time
  let mutated := cashflow.mapIdx fun i x =>
    if i = t.start then
      x + (w0 * t.startup_VOCfrac * TEA_sales + (1 - w0) * TEA_sales)
    else if t.start < i then x + TEA_sales
    else x
  let cfs1 := cfs.set k mutated
  let NPV := NPV_at_IRR c.IRR (c.TEAs.zip cfs1)
  let cfs2 := cfs1.set k CF
  (cfs2, NPV)

end CombinedTEA

/-! ## Mass-balance composition normalization
(`MassBalance._run`, `units/_balance.py` lines 160-179)

In the `balance == 'composition'` branch the constant-outlet flows
`mol_out` are normalized to a composition:
`z_mol_out = mol_out / F_mol_out if F_mol_out else mol_out`
(line 175), where `F_mol_out = mol_out.sum()` (line 174).  A falsy
(zero) total keeps the raw flow values. -/

/-- `z_mol_out` (`units/_balance.py` lines 174-175). -/
def z_mol_out (mol_out : List ℚ) : List ℚ :=
  let F_mol_out := mol_out.sum
  if F_mol_out ≠ 0 then mol_out.map (· / F_mol_out) else mol_out

/-! ## Concrete instances used as inputs of counterexamples and witnesses -/

/-- A sample venture: ten operating years, two construction years,
MACRS7 depreciation, identity cost-accounting hooks. -/
def tea0 : TEA where
  IRR := 0.1
  duration := (2020, 2030)
  depreciation_array := macrs7
  income_tax := 0.35
  operating_days := 330
  lang_factor := 0
  construction_schedule := [0.4, 0.6]
  startup_time := 1/3
  startup_FOCfrac := 1
  startup_VOCfrac := 0.75
  startup_salesfrac := 0.5
  WC_over_FCI := 0.05
  finance_interest := 0
  finance_years := 0
  finance_fraction := 0
  TDCf := id
  FCIf := id
  FOCf := fun FCI => FCI / 10
  units := [⟨1000, 3000, 2⟩]
  feeds := [⟨5, 10, 100, true, false⟩]
  products := [⟨8, 20, 50, false, true⟩]

/-- A venture with one operating day per year and no income tax, so
that its annualized tax-adjusted factor is exactly 24. -/
def tea2 : TEA :=
  { tea0 with income_tax := 0, operating_days := 1 }

/-- A product stream with unit net mass flow. -/
def s2 : Strm := ⟨1, 1, 1, false, true⟩

/-- A venture whose `_FCI` hook doubles TDC, separating
`WC_over_FCI * TDC` from `WC_over_FCI * FCI`: here TDC = 1000 and
FCI = 2000. -/
def tea3 : TEA :=
  { tea0 with FCIf := fun TDC => 2 * TDC }

/-- A venture with zero startup time, for the startup-blending boundary. -/
def tea6 : TEA :=
  { tea0 with startup_time := 0 }

/-! ## Helper lemmas -/

/-- `getD` of a `List.ofFn` at an in-range index. -/
lemma getD_ofFn {m : ℕ} (f : Fin m → ℚ) (i : ℕ) (h : i < m) :
    (List.ofFn f).getD i 0 = f ⟨i, h⟩ := by
  have hlen : i < (List.ofFn f).length := by simpa using h
  rw [List.getD_eq_getElem _ _ hlen, List.getElem_ofFn]

/-- Entry `i` of the working-capital series, for `i < n`. -/
lemma C_WC_getD (t : TEA) (i : ℕ) (h : i < t.n) :
    t.C_WC.getD i 0 =
      if i = t.n - 1 then -t.WCcash
      else if i = t.wcSpendIndex then t.WCcash
      else 0 := by
  unfold TEA.C_WC
  rw [getD_ofFn _ i h]

/-- Entry `i` of the operating-cost series `C`, for `i < n`. -/
lemma Cser_getD (t : TEA) (i : ℕ) (h : i < t.n) :
    t.Cser.getD i 0 =
      if i < t.start then 0
      else if i = t.start then
        t.startup_time * t.startup_VOCfrac * t.VOC
          + (1 - t.startup_time) * t.VOC
          + t.startup_time * t.startup_FOCfrac * t.FOC
          + (1 - t.startup_time) * t.FOC
      else t.VOC + t.FOC := by
  unfold TEA.Cser
  rw [getD_ofFn _ i h]

/-- Entry `i` of the sales series `S`, for `i < n`. -/
lemma Sser_getD (t : TEA) (i : ℕ) (h : i < t.n) :
    t.Sser.getD i 0 =
      if i < t.start then 0
      else if i = t.start then
        t.startup_time * t.startup_salesfrac * t.sales
          + (1 - t.startup_time) * t.sales
      else t.sales := by
  unfold TEA.Sser
  rw [getD_ofFn _ i h]

/-- Summing a pointwise sum of two maps splits. -/
lemma list_sum_map_add {α : Type} (l : List α) (f g : α → ℚ) :
    (l.map fun x => f x + g x).sum = (l.map f).sum + (l.map g).sum := by
  induction l with
  | nil => simp
  | cons a l ih => simp [ih]; ring

/-! ## Claims -/

/-- C1: the spec asserts that every registered depreciation schedule's
fractions sum to 1.0 within 1e-6.  MACRS5, MACRS7, MACRS10 and MACRS15
do sum to exactly 1, but the source's MACRS20 table (entry index 8 is
`0.4462`, ten times the standard MACRS value `0.04462`, `_tea.py` line
41) sums to 1.40158, violating the tolerance: the code contradicts the
spec and the MACRS tables it transcribes. -/
theorem C1_depreciation_sum_bug :
    macrs5.sum = 1 ∧ macrs7.sum = 1 ∧ macrs10.sum = 1 ∧ macrs15.sum = 1 ∧
    macrs20.sum = 1.40158 ∧ ¬(|macrs20.sum - 1| ≤ 1e-6) := by
  have h20 : macrs20.sum = 1.40158 := by
    norm_num [macrs20, List.sum_cons, List.sum_nil]
  refine ⟨by norm_num [macrs5, List.sum_cons, List.sum_nil],
          by norm_num [macrs7, List.sum_cons, List.sum_nil],
          by norm_num [macrs10, List.sum_cons, List.sum_nil],
          by norm_num [macrs15, List.sum_cons, List.sum_nil],
          h20, ?_⟩
  rw [h20, show (1.40158 : ℚ) - 1 = 0.40158 by norm_num,
      abs_of_pos (by norm_num : (0.40158 : ℚ) > 0)]
  norm_num

/-- C2 counterexample: the claim states that the combined
`solve_price` also divides the solved sales value by
`massnet * annual_factor * (1 - income_tax)`; but
`CombinedTEA._price2cost` (`_tea.py` lines 612-614) returns plain
`massnet`.  For the stream `s2` (massnet 1) and member venture `tea2`
(annual factor 24, no tax) the code's factor is 1 while the claimed
factor is 24. -/
theorem C2_combined_factor_counterexample :
    CombinedTEA.price2cost s2 = 1 ∧
    s2.massnet * tea2.annual_factor * (1 - tea2.income_tax) = 24 ∧
    CombinedTEA.price2cost s2 ≠
      s2.massnet * tea2.annual_factor * (1 - tea2.income_tax) := by
  refine ⟨rfl, ?_, ?_⟩ <;>
    norm_num [CombinedTEA.price2cost, TEA.annual_factor, s2, tea2, tea0]

/-- C2 amended: the single-venture `TEA._price2cost` is the annualized,
tax-adjusted factor `massnet * annual_factor * (1 - income_tax)`, while
`CombinedTEA._price2cost` is just `massnet` — in the combined case the
annualization and tax adjustment are instead applied to the sales value
inside `CombinedTEA._NPV_with_sales` (line 560). -/
theorem C2_price2cost_formulas (t : TEA) (s : Strm) :
    t.price2cost s = s.massnet * t.annual_factor * (1 - t.income_tax) ∧
    CombinedTEA.price2cost s = s.massnet :=
  ⟨rfl, rfl⟩

/-- C3: the claim (and the spec, `WC = ratio × FCI`) says the
`working_capital` property is `WC_over_FCI * FCI`, consistent with the
cash flow table.  The source property (`_tea.py` line 282) computes
`WC_over_FCI * TDC` instead, contradicting the venture's own cash flow
(line 354 posts `WC_over_FCI * FCI`) and its `TCI`
(`(1 + WC_over_FCI) * FCI`, line 267).  For `tea3` (TDC 3000,
FCI 6000, ratio 0.05) the property yields 150 while the cash flow table
posts 300 in the last construction year, and `TCI - FCI` is also 300. -/
theorem C3_working_capital_uses_TDC :
    tea3.working_capital = 150 ∧
    tea3.WC_over_FCI * tea3.FCI = 300 ∧
    tea3.working_capital ≠ tea3.WC_over_FCI * tea3.FCI ∧
    tea3.C_WC.getD (tea3.start - 1) 0 = 300 ∧
    tea3.TCI - tea3.FCI = 300 := by
  have hstart : tea3.start = 2 := rfl
  have hn : tea3.n = 12 := rfl
  have hidx : tea3.wcSpendIndex = 1 := rfl
  have hW : tea3.WCcash = 300 := by
    norm_num [TEA.WCcash, TEA.FCI, TEA.TDC, TEA.DPI, TEA.installation_cost,
              tea3, tea0]
  refine ⟨?_, ?_, ?_, ?_, ?_⟩
  · norm_num [TEA.working_capital, TEA.TDC, TEA.DPI, TEA.installation_cost,
              tea3, tea0]
  · norm_num [TEA.FCI, TEA.TDC, TEA.DPI, TEA.installation_cost, tea3, tea0]
  · norm_num [TEA.working_capital, TEA.FCI, TEA.TDC, TEA.DPI,
              TEA.installation_cost, tea3, tea0]
  · rw [hstart, C_WC_getD tea3 1 (by rw [hn]; norm_num), hn, hidx, hW]
    norm_num
  · norm_num [TEA.TCI, TEA.FCI, TEA.TDC, TEA.DPI, TEA.installation_cost,
              tea3, tea0]

/-- C4 counterexample: the claim says the rejection message names all
registered schedules including MACRS20.  `MACRS20` is a registered name
(lookup succeeds), yet the `ValueError` message of the setter
(`_tea.py` line 220) enumerates only MACRS5, MACRS7, MACRS10 and
MACRS15: for the unknown name `"FOO"` the raised error does not mention
`MACRS20`. -/
theorem C4_message_omits_MACRS20 :
    set_depreciation "FOO" = .error ⟨depreciationMessageNames⟩ ∧
    "MACRS20" ∈ macrsNames ∧
    _MACRS "MACRS20" = some macrs20 ∧
    "MACRS20" ∉ depreciationMessageNames := by
  refine ⟨rfl, by decide, rfl, by decide⟩

/-- C4 amended: setting the depreciation schedule to any name missing
from the registry fails with a `ValueError` whose message names only
MACRS5, MACRS7, MACRS10 and MACRS15 (omitting the registered MACRS20),
and setting it to any registered name succeeds with that schedule's
fraction table. -/
theorem C4_depreciation_setter (name : String) :
    (_MACRS name = none →
      set_depreciation name = .error ⟨depreciationMessageNames⟩) ∧
    (∀ arr, _MACRS name = some arr → set_depreciation name = .ok arr) := by
  constructor
  · intro h
    simp [set_depreciation, h]
  · intro arr h
    simp [set_depreciation, h]

/-- C4 witness: the amended theorem applied at the unknown name `"FOO"`
and at the registered name `"MACRS20"`. -/
theorem C4_depreciation_setter_witness :
    set_depreciation "FOO" = .error ⟨depreciationMessageNames⟩ ∧
    set_depreciation "MACRS20" = .ok macrs20 :=
  ⟨(C4_depreciation_setter "FOO").1 rfl,
   (C4_depreciation_setter "MACRS20").2 macrs20 rfl⟩

/-- Sum over `Fin m` of an indicator supported at one index. -/
lemma fin_sum_indicator (m c : ℕ) (hc : c < m) (a : ℚ) :
    (∑ i : Fin m, if (i : ℕ) = c then a else 0) = a := by
  have key : ∀ i : Fin m,
      (if (i : ℕ) = c then a else 0) = if i = ⟨c, hc⟩ then a else 0 := by
    intro i
    congr 1
    simp [Fin.ext_iff]
  simp_rw [key]
  simp

/-- C7: for every venture with at least one construction year and at
least one operating year, the working-capital series sums to exactly 0:
the working-capital amount (`WC_over_FCI * FCI`) is posted once at the
last construction year (`start - 1`) and its exact negation at the
final operating year (`n - 1`). -/
theorem C7_working_capital_roundtrip (t : TEA) (h1 : 1 ≤ t.start)
    (h2 : 1 ≤ t.yearsN) :
    t.C_WC.sum = 0 ∧
    t.C_WC.getD (t.start - 1) 0 = t.WCcash ∧
    t.C_WC.getD (t.n - 1) 0 = -t.WCcash := by
  have hn : t.n = t.start + t.yearsN := rfl
  have hidx : t.wcSpendIndex = t.start - 1 := by
    unfold TEA.wcSpendIndex
    rw [if_neg (by omega)]
  refine ⟨?_, ?_, ?_⟩
  · unfold TEA.C_WC
    have hsplit : ∀ i : Fin t.n,
        (if (i : ℕ) = t.n - 1 then -t.WCcash
         else if (i : ℕ) = t.wcSpendIndex then t.WCcash else 0)
        = (if (i : ℕ) = t.n - 1 then -t.WCcash else 0)
          + (if (i : ℕ) = t.start - 1 then t.WCcash else 0) := by
      intro i
      rw [hidx]
      by_cases ha : (i : ℕ) = t.n - 1
      · rw [if_pos ha, if_pos ha, if_neg (by omega)]
        ring
      · rw [if_neg ha, if_neg ha]
        by_cases hb : (i : ℕ) = t.start - 1
        · rw [if_pos hb]
          ring
        · rw [if_neg hb]
          ring
    calc (List.ofFn fun i : Fin t.n =>
            if (i : ℕ) = t.n - 1 then -t.WCcash
            else if (i : ℕ) = t.wcSpendIndex then t.WCcash else 0).sum
        = ∑ i : Fin t.n,
            ((if (i : ℕ) = t.n - 1 then -t.WCcash else 0)
              + (if (i : ℕ) = t.start - 1 then t.WCcash else 0)) := by
          rw [List.sum_ofFn]
          exact Finset.sum_congr rfl fun i _ => hsplit i
      _ = (∑ i : Fin t.n, if (i : ℕ) = t.n - 1 then -t.WCcash else 0)
          + ∑ i : Fin t.n, if (i : ℕ) = t.start - 1 then t.WCcash else 0 :=
          Finset.sum_add_distrib
      _ = 0 := by
          rw [fin_sum_indicator t.n (t.n - 1) (by omega) (-t.WCcash),
              fin_sum_indicator t.n (t.start - 1) (by omega) t.WCcash]
          ring
  · rw [C_WC_getD t (t.start - 1) (by omega),
        if_neg (by omega), hidx, if_pos rfl]
  · rw [C_WC_getD t (t.n - 1) (by omega), if_pos rfl]

/-- C7 witness: the round-trip evaluated on `tea0` (two construction
years, ten operating years). -/
theorem C7_working_capital_roundtrip_witness :
    tea0.C_WC.sum = 0 ∧
    tea0.C_WC.getD (tea0.start - 1) 0 = tea0.WCcash ∧
    tea0.C_WC.getD (tea0.n - 1) 0 = -tea0.WCcash :=
  C7_working_capital_roundtrip tea0 (by decide) (by decide)

/-- C8: every simple aggregate property of `CombinedTEA` (sales,
purchase cost, installation cost, utility cost, material cost, DPI,
TDC, FCI, TCI, FOC, AOC, working capital, net earnings) equals the sum
over the member TEAs of the corresponding member property, and for a
combination of two identical members the combined sales is twice the
single venture's sales. -/
theorem C8_combined_aggregation (c : CombinedTEA) (t : TEA) (r : ℚ) :
    c.sales = (c.TEAs.map TEA.sales).sum ∧
    c.purchase_cost = (c.TEAs.map TEA.purchase_cost).sum ∧
    c.installation_cost = (c.TEAs.map TEA.installation_cost).sum ∧
    c.utility_cost = (c.TEAs.map TEA.utility_cost).sum ∧
    c.material_cost = (c.TEAs.map TEA.material_cost).sum ∧
    c.DPI = (c.TEAs.map TEA.DPI).sum ∧
    c.TDC = (c.TEAs.map TEA.TDC).sum ∧
    c.FCI = (c.TEAs.map TEA.FCI).sum ∧
    c.TCI = (c.TEAs.map TEA.TCI).sum ∧
    c.FOC = (c.TEAs.map TEA.FOC).sum ∧
    c.AOC = (c.TEAs.map TEA.AOC).sum ∧
    c.working_capital = (c.TEAs.map TEA.working_capital).sum ∧
    c.net_earnings = (c.TEAs.map TEA.net_earnings).sum ∧
    CombinedTEA.sales ⟨[t, t], r⟩ = 2 * t.sales := by
  refine ⟨rfl, rfl, rfl, rfl, rfl, rfl, rfl, rfl, rfl, rfl, ?_, rfl, rfl, ?_⟩
  · have : c.AOC = (c.TEAs.map fun x =>
        TEA.FOC x + (TEA.material_cost x + TEA.utility_cost x)).sum := by
      rw [list_sum_map_add, list_sum_map_add]
      rfl
    exact this
  · show (([t, t].map TEA.sales).sum : ℚ) = 2 * t.sales
    simp [two_mul]

/-- Setting an entry back to the value it already holds is a no-op. -/
lemma list_set_getD {α : Type} (l : List α) (k : ℕ) (d : α)
    (h : k < l.length) : l.set k (l.getD k d) = l := by
  induction l generalizing k with
  | nil => simp at h
  | cons a l ih =>
    cases k with
    | zero => simp
    | succ k =>
      have hk : k < l.length := by simpa using h
      have h2 := ih k hk
      rw [List.getD_eq_getElem?_getD] at h2
      simp [h2]

/-- C10: each evaluation of `CombinedTEA._NPV_with_sales` restores the
attributed member's cash flow array to its original contents before
returning: the heap of member cash flow arrays after the call equals the
heap before it, so repeated evaluations during root-finding leave the
member series unchanged. -/
theorem C10_npv_with_sales_frame (c : CombinedTEA) (sales : ℚ)
    (cfs : List (List ℚ)) (k : ℕ) (t : TEA) (hk : k < cfs.length) :
    (CombinedTEA.NPV_with_sales c sales cfs k t).1 = cfs := by
  unfold CombinedTEA.NPV_with_sales
  dsimp only
  rw [List.set_set]
  exact list_set_getD cfs k [] hk

/-- C10 witness: one evaluation on a single-member combination with the
concrete cash flow heap `[[1, 2, 3]]` returns that heap unchanged. -/
theorem C10_npv_with_sales_frame_witness :
    (CombinedTEA.NPV_with_sales ⟨[tea0], 0.1⟩ 5 [[1, 2, 3]] 0 tea0).1
      = [[1, 2, 3]] :=
  C10_npv_with_sales_frame ⟨[tea0], 0.1⟩ 5 [[1, 2, 3]] 0 tea0 (by decide)

/-- C9: in the composition branch of `MassBalance._run`, when the
total constant-outlet flow is zero the normalization keeps the raw
(unnormalized) flow values instead of dividing by zero, and when the
total is nonzero it divides each flow by the total. -/
theorem C9_zero_flow_guard (mol_out : List ℚ) :
    (mol_out.sum = 0 → z_mol_out mol_out = mol_out) ∧
    (mol_out.sum ≠ 0 →
      z_mol_out mol_out = mol_out.map (· / mol_out.sum)) := by
  constructor
  · intro h
    simp [z_mol_out, h]
  · intro h
    simp [z_mol_out, h]

/-- C5: `solve_IRR` first attempts the accelerated (Aitken) secant
solver on the NPV objective seeded with the stored warm-start guess and
a second guess offset by `1e-6`, tolerance `1e-6`, at most 200
iterations; only if that attempt raises does it retry the plain secant
solver with fixed seeds `0.15` and `0.15001` (same tolerance and cap);
`solve_price` analogously tries the warm-start `_sales` seed first and
falls back to fixed seeds `0` and `1e-6`; in every case the stored
guess is updated to the value the solver returned. -/
theorem C5_solver_fallback_chain (accel : AccelSolver) (plain : PlainSolver)
    (t : TEA) (g sg : ℚ) (s : Strm) :
    ((t.solve_IRR accel plain g).1 = (t.solve_IRR accel plain g).2) ∧
    (∀ r, accel (fun IRR => t.NPV_at_IRR IRR t.cashflow)
        ⟨g, g + 1e-6, 1e-6, 200⟩ = some r →
      t.solve_IRR accel plain g = (r, r)) ∧
    (accel (fun IRR => t.NPV_at_IRR IRR t.cashflow)
        ⟨g, g + 1e-6, 1e-6, 200⟩ = none →
      t.solve_IRR accel plain g =
        (plain (fun IRR => t.NPV_at_IRR IRR t.cashflow)
          ⟨0.15, 0.15001, 1e-6, 200⟩,
         plain (fun IRR => t.NPV_at_IRR IRR t.cashflow)
          ⟨0.15, 0.15001, 1e-6, 200⟩)) ∧
    (∀ r, accel (fun x => t.NPV_with_sales x t.cashflow)
        ⟨sg, sg + 1e-6, 1e-6, 200⟩ = some r →
      (t.solve_price accel plain sg s).1 = r) ∧
    (accel (fun x => t.NPV_with_sales x t.cashflow)
        ⟨sg, sg + 1e-6, 1e-6, 200⟩ = none →
      (t.solve_price accel plain sg s).1 =
        plain (fun x => t.NPV_with_sales x t.cashflow)
          ⟨0, 1e-6, 1e-6, 200⟩) := by
  refine ⟨?_, ?_, ?_, ?_, ?_⟩
  · rcases hA : accel (fun IRR => t.NPV_at_IRR IRR t.cashflow)
      ⟨g, g + 1e-6, 1e-6, 200⟩ with _ | r <;>
      simp [TEA.solve_IRR, hA]
  · intro r hA
    simp [TEA.solve_IRR, hA]
  · intro hA
    simp [TEA.solve_IRR, hA]
  · intro r hA
    simp [TEA.solve_price, hA]
  · intro hA
    simp [TEA.solve_price, hA]

/-- C5 witness: the fallback chain evaluated with a primary solver that
succeeds (returning `0.2` for the rate and `5` for the sales value) and
with one that raises (so the plain secant results `0.3` and `7` are
used), on the concrete venture `tea0`. -/
theorem C5_solver_fallback_chain_witness :
    TEA.solve_IRR (fun _ _ => some 0.2) (fun _ _ => 0.3) tea0 0.1
      = (0.2, 0.2) ∧
    TEA.solve_IRR (fun _ _ => none) (fun _ _ => 0.3) tea0 0.1
      = (0.3, 0.3) ∧
    (TEA.solve_price (fun _ _ => some 5) (fun _ _ => 7) tea0 0 s2).1 = 5 ∧
    (TEA.solve_price (fun _ _ => none) (fun _ _ => 7) tea0 0 s2).1 = 7 :=
  ⟨(C5_solver_fallback_chain (fun _ _ => some 0.2) (fun _ _ => 0.3)
      tea0 0.1 0 s2).2.1 0.2 rfl,
   (C5_solver_fallback_chain (fun _ _ => none) (fun _ _ => 0.3)
      tea0 0.1 0 s2).2.2.1 rfl,
   (C5_solver_fallback_chain (fun _ _ => some 5) (fun _ _ => 7)
      tea0 0.1 0 s2).2.2.2.1 5 rfl,
   (C5_solver_fallback_chain (fun _ _ => none) (fun _ _ => 7)
      tea0 0.1 0 s2).2.2.2.2 rfl⟩

/-- C6: in the cash flow table the first operating year's operating
cost and sales blend startup and full rates as
`w0 * frac * full + (1 - w0) * full` (with the respective VOC/FOC/sales
startup fractions, the cost being the sum of the VOC and FOC blends);
every later operating year carries the full `VOC + FOC` and `sales`;
and with zero startup time the first operating year equals the full
values exactly. -/
theorem C6_startup_blending (t : TEA) (h : t.start < t.n) :
    t.Cser.getD t.start 0 =
      t.startup_time * t.startup_VOCfrac * t.VOC
        + (1 - t.startup_time) * t.VOC
        + t.startup_time * t.startup_FOCfrac * t.FOC
        + (1 - t.startup_time) * t.FOC ∧
    t.Sser.getD t.start 0 =
      t.startup_time * t.startup_salesfrac * t.sales
        + (1 - t.startup_time) * t.sales ∧
    (∀ i, t.start < i → i < t.n →
      t.Cser.getD i 0 = t.VOC + t.FOC ∧ t.Sser.getD i 0 = t.sales) ∧
    (t.startup_time = 0 →
      t.Cser.getD t.start 0 = t.VOC + t.FOC ∧
      t.Sser.getD t.start 0 = t.sales) := by
  have hC := Cser_getD t t.start h
  have hS := Sser_getD t t.start h
  rw [if_neg (lt_irrefl _), if_pos rfl] at hC hS
  refine ⟨hC, hS, ?_, ?_⟩
  · intro i hi hin
    have hCi := Cser_getD t i hin
    have hSi := Sser_getD t i hin
    rw [if_neg (by omega), if_neg (by omega)] at hCi hSi
    exact ⟨hCi, hSi⟩
  · intro h0
    constructor
    · rw [hC, h0]; ring
    · rw [hS, h0]; ring

/-- C6 witness: the blending boundary evaluated on `tea6` (startup
months = 0, two construction years, ten operating years): the first
operating year's cost and sales are the full-rate values. -/
theorem C6_startup_blending_witness :
    tea6.Cser.getD tea6.start 0 = tea6.VOC + tea6.FOC ∧
    tea6.Sser.getD tea6.start 0 = tea6.sales :=
  (C6_startup_blending tea6 (by decide)).2.2.2 rfl

/-- C9 witness: the guard evaluated at a zero-total flow vector and at
the flow vector `[1, 3]` (total 4). -/
theorem C9_zero_flow_guard_witness :
    z_mol_out [0, 0] = [0, 0] ∧
    z_mol_out [1, 3] = [1/4, 3/4] :=
  ⟨(C9_zero_flow_guard [0, 0]).1 (by norm_num),
   ((C9_zero_flow_guard [1, 3]).2 (by norm_num)).trans (by norm_num)⟩
